import Mathlib

/-!
Verification of the ADS-B codec in `src/adsb-main/src/utils/airlineDatabase.ts`
(classes `AdsbSimulator` and `AdsbDecoder`).

Embedding notes:
* A JavaScript string is modelled as a `List Char`; the decoder's input
  `hexMsg` is the character list of the hex string.
* JavaScript `BigInt` values are modelled as `ℕ` (all values in the codec are
  nonnegative); bit extraction `(x >> k) & (2^w - 1)` becomes
  `(x >>> k) % 2^w` and `|=` on disjoint or overlapping fields becomes
  `Nat.lor` (`|||`), exactly as in the source.
* JavaScript `number` arithmetic on latitudes/longitudes/altitudes is
  modelled as exact rational arithmetic (`ℚ`); `Math.floor` is `Int.floor`.
* `BigInt('0x' + s)` throws on a non-hex digit; this fallible parse is
  modelled by `hexVal? : List Char → Option ℕ`, and `decodeMessage` returns
  `Except Unit …` where `.error ()` is the thrown exception.
* `x.toString(16).toUpperCase().padStart(k, '0')` is modelled by
  `padStart k '0' (natToHexMin x)`; `natToHexMin` produces the minimal
  uppercase hex digit list (upper-casing is fused into the digit table).
-/

namespace Adsb

/-- Uppercase hex digit character for a digit `d < 16`. -/
def hexChar (d : ℕ) : Char :=
  Char.ofNat (if d < 10 then 48 + d else 55 + d)

/-- Value of a hex digit character, `none` if the character is not a hex
digit (this is where `BigInt('0x' + s)` would throw). -/
def hexDigitVal? (c : Char) : Option ℕ :=
  if 48 ≤ c.toNat ∧ c.toNat ≤ 57 then some (c.toNat - 48)
  else if 97 ≤ c.toNat ∧ c.toNat ≤ 102 then some (c.toNat - 87)
  else if 65 ≤ c.toNat ∧ c.toNat ≤ 70 then some (c.toNat - 55)
  else none

/-- Accumulating hex parse. -/
def hexValAux : ℕ → List Char → Option ℕ
  | acc, [] => some acc
  | acc, c :: cs =>
    match hexDigitVal? c with
    | some d => hexValAux (acc * 16 + d) cs
    | none => none

/-- Parse a list of hex digit characters as a natural number
(model of `BigInt('0x' + s)`). -/
def hexVal? (cs : List Char) : Option ℕ := hexValAux 0 cs

/-- Fixed-width big-endian hex rendering: the low `k` hex digits of `n`. -/
def natToHexDigits : ℕ → ℕ → List Char
  | 0, _ => []
  | k + 1, n => natToHexDigits k (n / 16) ++ [hexChar (n % 16)]

/-- Minimal-width hex rendering with explicit fuel (first argument); with
fuel ≥ n this is JavaScript `n.toString(16).toUpperCase()`. -/
def toHexMinAux : ℕ → ℕ → List Char
  | 0, n => [hexChar (n % 16)]
  | fuel + 1, n =>
    if n < 16 then [hexChar n] else toHexMinAux fuel (n / 16) ++ [hexChar (n % 16)]

/-- Model of `n.toString(16).toUpperCase()` for a `BigInt` / nonnegative
integer `n`. -/
def natToHexMin (n : ℕ) : List Char := toHexMinAux n n

/-- Model of `String.prototype.padStart(k, c)`. -/
def padStart (k : ℕ) (c : Char) (cs : List Char) : List Char :=
  List.replicate (k - cs.length) c ++ cs

/-- `interface DecodedPosition` (the `type: 'position'` tag is carried by the
`DecodedData` constructor). -/
structure DecodedPosition where
  lat : ℚ
  lng : ℚ
  altitude : ℤ
  nic : ℕ
deriving DecidableEq, Repr

/-- `interface DecodedVelocity`. -/
structure DecodedVelocity where
  speed : ℕ
  heading : ℚ
deriving DecidableEq, Repr

/-- `interface DecodedIdentification` (never produced by `decodeMessage` in
the source, present for type fidelity). -/
structure DecodedIdentification where
  callsign : List Char
deriving DecidableEq, Repr

/-- `type DecodedData = DecodedPosition | DecodedVelocity |
DecodedIdentification | null`; the `null` alternative is modelled by wrapping
in `Option` at the use site. -/
inductive DecodedData where
  | position : DecodedPosition → DecodedData
  | velocity : DecodedVelocity → DecodedData
  | identification : DecodedIdentification → DecodedData
deriving DecidableEq, Repr

/-- The record `{ icao: string, data: DecodedData }` returned by
`decodeMessage` on success. -/
structure DecodeResult where
  icao : List Char
  data : Option DecodedData
deriving DecidableEq, Repr

/-- `AdsbDecoder.decodePosition` (source lines 551–570): raw field
extraction and the simplified linear lat/lng mapping. -/
def decodePosition (payload : ℕ) : DecodedPosition :=
  let nicEncoded := (payload >>> 47) % 16
  let altEncoded := (payload >>> 35) % 4096
  let latEncoded := (payload >>> 16) % 131072
  let lngEncoded := payload % 131072
  { lat := (latEncoded : ℚ) / 131071 * 180 - 90
    lng := (lngEncoded : ℚ) / 131071 * 360 - 180
    altitude := (altEncoded : ℤ) * 25 - 1000
    nic := nicEncoded }

/-- `AdsbDecoder.decodeVelocity` (source lines 572–581). -/
def decodeVelocity (payload : ℕ) : DecodedVelocity :=
  let speedEncoded := (payload >>> 30) % 1024
  let headingEncoded := (payload >>> 20) % 128
  { speed := speedEncoded
    heading := (headingEncoded : ℚ) / 127 * 360 }

/-- The body of `AdsbDecoder.decodeMessage` after the length gate and the
`BigInt` parse (source lines 530–548), as a function of the parsed 112-bit
message integer. -/
def decodeMessageCore (msgInt : ℕ) : Option DecodeResult :=
  let df := (msgInt >>> 107) % 32
  let icao := padStart 6 '0' (natToHexMin ((msgInt >>> 80) % 16777216))
  let payload := (msgInt >>> 24) % 72057594037927936
  if df ≠ 17 then none
  else
    let typeCode := (payload >>> 51) % 32
    if 9 ≤ typeCode ∧ typeCode ≤ 18 then
      some { icao := icao, data := some (DecodedData.position (decodePosition payload)) }
    else if typeCode = 19 then
      some { icao := icao, data := some (DecodedData.velocity (decodeVelocity payload)) }
    else
      some { icao := icao, data := none }

/-- `AdsbDecoder.decodeMessage` (source lines 527–549): length gate, then
`BigInt('0x' + hexMsg)` (which throws on a non-hex character: `.error ()`),
then field extraction and type-code dispatch. -/
def decodeMessage (hexMsg : List Char) : Except Unit (Option DecodeResult) :=
  if hexMsg.length ≠ 28 then Except.ok none
  else
    match hexVal? hexMsg with
    | none => Except.error ()
    | some msgInt => Except.ok (decodeMessageCore msgInt)

/-- JavaScript `x & (2^w − 1)` on a (possibly negative) integer `x`: two's
complement bitwise AND with a power-of-two mask equals the nonnegative
remainder mod `2^w`. -/
def jsAnd (x : ℤ) (w : ℕ) : ℕ := (x % (2 ^ w : ℤ)).toNat

/-- The 56-bit payload assembled by `AdsbSimulator.generatePositionMessage`
(source lines 432–472): Type Code 11, `nic & 0xF` at bit 47, the simplified
altitude at bit 35, `time = 0`, `cprFormat = 0`, the simplified 17-bit
latitude at bit 16 and longitude at bit 0, combined with `|=` (note the
overlap of the latitude field's bit 0 with the longitude field's bit 16). -/
def generatePayload (lat lng alt : ℚ) (nic : ℕ) : ℕ :=
  let typeCode := 11
  let altEncoded := jsAnd (Int.floor ((alt + 1000) / 25)) 12
  let time := 0
  let cprFormat := 0
  let latEncoded := jsAnd (Int.floor ((lat + 90) / 180 * 131071)) 17
  let lngEncoded := jsAnd (Int.floor ((lng + 180) / 360 * 131071)) 17
  let nicEncoded := nic % 16
  ((((((typeCode <<< 51) ||| (nicEncoded <<< 47)) ||| (altEncoded <<< 35)) |||
      (time <<< 34)) ||| (cprFormat <<< 33)) ||| (latEncoded <<< 16)) ||| lngEncoded

/-- `AdsbSimulator.assembleMessage` (source lines 500–516): shift `df`, `ca`,
`icao`, the 56-bit payload and the stubbed parity `0xA5A5A5` into place and
render as uppercase hex padded to 28 characters. -/
def assembleMessage (df ca icao : ℕ) (payload : ℕ) : List Char :=
  let msg := ((((df <<< 107) ||| (ca <<< 104)) ||| (icao <<< 80)) |||
      (payload <<< 24)) ||| 10855845
  padStart 28 '0' (natToHexMin msg)

/-- `AdsbSimulator.generatePositionMessage` (source lines 426–475). The
source takes the ICAO address as a hex string and applies
`parseInt(icao, 16)`; here `icaoInt` is that parsed value directly (the
claims quantify over strings that parse as 24-bit values). -/
def generatePositionMessage (icaoInt : ℕ) (lat lng alt : ℚ) (nic : ℕ) : List Char :=
  assembleMessage 17 5 icaoInt (generatePayload lat lng alt nic)

/-- Modelled from the spec (claim side, for C8): the spec's §4.4 east-west
10-bit raw magnitude field of a subtype-1 velocity payload, at ME bits 15–24
(bits 41 down to 32 of the 56-bit payload). Not present in the source, which
never extracts these fields. -/
def specVelEWMag (payload : ℕ) : ℕ := (payload >>> 32) % 1024

/-- Modelled from the spec (claim side, for C8): the spec's §4.4 north-south
10-bit raw magnitude field, at ME bits 26–35 (bits 30 down to 21 of the
56-bit payload). Not present in the source. -/
def specVelNSMag (payload : ℕ) : ℕ := (payload >>> 21) % 1024

/-- The position record produced by round-tripping a simulator frame through
the decoder: the payload field extraction of `decodeMessage` applied to
`generatePositionMessage` (the parse of a generated frame always succeeds,
so the `getD` default is never reached). -/
def roundTripPosition (icaoInt : ℕ) (lat lng alt : ℚ) (nic : ℕ) : DecodedPosition :=
  decodePosition ((((hexVal? (generatePositionMessage icaoInt lat lng alt nic)).getD 0)
    >>> 24) % 72057594037927936)

/-! ### Hex parsing / rendering round-trip lemmas -/

theorem hexDigitVal_hexChar {d : ℕ} (h : d < 16) : hexDigitVal? (hexChar d) = some d := by
  revert h
  revert d
  decide

theorem hexValAux_append (acc : ℕ) (xs ys : List Char) :
    hexValAux acc (xs ++ ys) = (hexValAux acc xs).bind (fun a => hexValAux a ys) := by
  induction xs generalizing acc with
  | nil => simp [hexValAux]
  | cons c cs ih =>
    simp only [List.cons_append, hexValAux]
    cases hexDigitVal? c with
    | none => simp
    | some d => simp [ih]

theorem hexValAux_natToHexDigits (k : ℕ) : ∀ acc n : ℕ,
    hexValAux acc (natToHexDigits k n) = some (acc * 16 ^ k + n % 16 ^ k) := by
  induction k with
  | zero => intro acc n; simp [natToHexDigits, hexValAux, Nat.mod_one]
  | succ k ih =>
    intro acc n
    rw [natToHexDigits, hexValAux_append, ih]
    simp only [Option.some_bind]
    rw [hexValAux, hexDigitVal_hexChar (Nat.mod_lt _ (by norm_num))]
    simp only [hexValAux]
    congr 1
    have hmod : n % 16 ^ (k + 1) = n % 16 + 16 * (n / 16 % 16 ^ k) := by
      rw [show (16:ℕ) ^ (k + 1) = 16 * 16 ^ k by ring, Nat.mod_mul]
    rw [hmod]
    ring

theorem hexVal_natToHexDigits {k n : ℕ} (h : n < 16 ^ k) :
    hexVal? (natToHexDigits k n) = some n := by
  unfold hexVal?
  rw [hexValAux_natToHexDigits]
  simp [Nat.mod_eq_of_lt h]

theorem natToHexDigits_length (k : ℕ) : ∀ n : ℕ, (natToHexDigits k n).length = k := by
  induction k with
  | zero => intro n; simp [natToHexDigits]
  | succ k ih => intro n; simp [natToHexDigits, ih]

theorem natToHexDigits_zero (k : ℕ) : natToHexDigits k 0 = List.replicate k '0' := by
  induction k with
  | zero => simp [natToHexDigits]
  | succ k ih =>
    rw [natToHexDigits]
    norm_num [ih]
    rw [show hexChar 0 = '0' from rfl, ← List.replicate_succ' k '0']

theorem toHexMinAux_pad (k : ℕ) : ∀ fuel n : ℕ, n ≤ fuel → n < 16 ^ k → 0 < k →
    padStart k '0' (toHexMinAux fuel n) = natToHexDigits k n := by
  induction k with
  | zero => intro fuel n _ _ hk; omega
  | succ k ih =>
    intro fuel n hfuel hn _
    match fuel with
    | 0 =>
      have hn0 : n = 0 := by omega
      subst hn0
      rw [toHexMinAux, natToHexDigits_zero]
      show List.replicate (k + 1 - 1) '0' ++ [hexChar 0] = List.replicate (k + 1) '0'
      rw [List.replicate_succ' k '0']
      rfl
    | f + 1 =>
      rw [toHexMinAux]
      by_cases h16 : n < 16
      · rw [if_pos h16, natToHexDigits, Nat.div_eq_of_lt h16, Nat.mod_eq_of_lt h16,
          natToHexDigits_zero]
        show List.replicate (k + 1 - 1) '0' ++ [hexChar n] = _
        rfl
      · rw [if_neg h16]
        have hk' : 0 < k := by
          rcases Nat.eq_zero_or_pos k with h | h
          · subst h; norm_num at hn; omega
          · exact h
        have hdivf : n / 16 ≤ f := by
          have := Nat.div_lt_self (show 0 < n by omega) (show 1 < 16 by norm_num)
          omega
        have hdivpow : n / 16 < 16 ^ k := by
          rw [show (16:ℕ) ^ (k + 1) = 16 * 16 ^ k by ring] at hn
          exact Nat.div_lt_of_lt_mul hn
        have hstep : padStart (k + 1) '0' (toHexMinAux f (n / 16) ++ [hexChar (n % 16)])
            = padStart k '0' (toHexMinAux f (n / 16)) ++ [hexChar (n % 16)] := by
          unfold padStart
          rw [List.length_append]
          simp only [List.length_singleton]
          rw [show k + 1 - ((toHexMinAux f (n / 16)).length + 1)
              = k - (toHexMinAux f (n / 16)).length by omega]
          rw [List.append_assoc]
        rw [hstep, ih f (n / 16) hdivf hdivpow hk', natToHexDigits]

theorem natToHexMin_pad {k n : ℕ} (hn : n < 16 ^ k) (hk : 0 < k) :
    padStart k '0' (natToHexMin n) = natToHexDigits k n :=
  toHexMinAux_pad k n n le_rfl hn hk

/-! ### Bitwise-or as addition on disjoint fields -/

theorem lor_split (k : ℕ) : ∀ a d c b : ℕ, c < 2 ^ k → b < 2 ^ k →
    (2 ^ k * a + c) ||| (2 ^ k * d + b) = 2 ^ k * (a ||| d) + (c ||| b) := by
  induction k with
  | zero =>
    intro a d c b hc hb
    interval_cases c
    interval_cases b
    simp
  | succ k ih =>
    intro a d c b hc hb
    have hp : (2:ℕ) ^ (k + 1) = 2 * 2 ^ k := by ring
    rw [hp] at hc hb
    have hpa : 2 ^ (k + 1) * a = 2 * (2 ^ k * a) := by rw [hp]; ring
    have hpd : 2 ^ (k + 1) * d = 2 * (2 ^ k * d) := by rw [hp]; ring
    have e1 : 2 ^ (k + 1) * a + c = Nat.bit c.bodd (2 ^ k * a + c.div2) := by
      have hm := Nat.mod_two_of_bodd c
      cases hb2 : c.bodd <;> rw [hb2] at hm <;> simp at hm <;>
        simp only [Nat.bit, cond_false, cond_true, Nat.div2_val, hpa] <;> omega
    have e2 : 2 ^ (k + 1) * d + b = Nat.bit b.bodd (2 ^ k * d + b.div2) := by
      have hm := Nat.mod_two_of_bodd b
      cases hb2 : b.bodd <;> rw [hb2] at hm <;> simp at hm <;>
        simp only [Nat.bit, cond_false, cond_true, Nat.div2_val, hpd] <;> omega
    have hcd : c.div2 < 2 ^ k := by rw [Nat.div2_val]; omega
    have hbd : b.div2 < 2 ^ k := by rw [Nat.div2_val]; omega
    rw [e1, e2, Nat.lor_bit, ih _ _ _ _ hcd hbd]
    have e3 : c ||| b = Nat.bit (c.bodd || b.bodd) (c.div2 ||| b.div2) := by
      conv_lhs => rw [← Nat.bit_decomp c, ← Nat.bit_decomp b]
      rw [Nat.lor_bit]
    rw [e3]
    cases c.bodd || b.bodd <;>
      simp only [Nat.bit, cond_false, cond_true] <;> rw [hp] <;> ring

theorem lor_eq_add {k a b : ℕ} (hb : b < 2 ^ k) : (2 ^ k * a) ||| b = 2 ^ k * a + b := by
  have h0 : (0:ℕ) < 2 ^ k := Nat.pos_pow_of_pos k (by norm_num)
  have := lor_split k a 0 0 b h0 hb
  simpa using this

theorem lor_one_of_even {a : ℕ} (h : a % 2 = 0) : a ||| 1 = a + 1 := by
  have h1 := lor_split 1 (a / 2) 0 0 1 (by norm_num) (by norm_num)
  simp only [pow_one, Nat.mul_zero, Nat.add_zero, Nat.zero_add, Nat.or_zero,
    Nat.zero_or] at h1
  have ha : 2 * (a / 2) = a := by omega
  rw [ha] at h1
  exact h1

theorem lor_one_of_odd {a : ℕ} (h : a % 2 = 1) : a ||| 1 = a := by
  have h1 := lor_split 1 (a / 2) 0 1 1 (by norm_num) (by norm_num)
  simp only [pow_one, Nat.mul_zero, Nat.add_zero, Nat.zero_add, Nat.or_zero,
    Nat.or_self] at h1
  have ha : 2 * (a / 2) + 1 = a := by omega
  rw [ha] at h1
  exact h1

theorem lor_low_bit {E La s : ℕ} (hE : E % 2 = 0) (hs : s < 2) :
    (E + La) ||| s = E + (La ||| s) := by
  have h1 := lor_split 1 ((E + La) / 2) 0 ((E + La) % 2) s (by omega) (by omega)
  have h2 := lor_split 1 (La / 2) 0 (La % 2) s (by omega) (by omega)
  simp only [pow_one, Nat.mul_zero, Nat.zero_add, Nat.or_zero] at h1 h2
  rw [show 2 * ((E + La) / 2) + (E + La) % 2 = E + La by omega] at h1
  rw [show 2 * (La / 2) + La % 2 = La by omega] at h2
  rw [show (E + La) % 2 = La % 2 by omega] at h1
  rw [h1, h2]
  omega

/-! ### Unfolding the decoder on parsed input -/

theorem decodeMessage_parsed {cs : List Char} {m : ℕ} (h28 : cs.length = 28)
    (hv : hexVal? cs = some m) :
    decodeMessage cs = Except.ok (decodeMessageCore m) := by
  simp [decodeMessage, h28, hv]

theorem decodeMessageCore_not17 {m : ℕ} (hdf : (m >>> 107) % 32 ≠ 17) :
    decodeMessageCore m = none := by
  simp [decodeMessageCore, hdf]

theorem tc_extract (m : ℕ) :
    (((m >>> 24) % 72057594037927936) >>> 51) % 32 = (m >>> 75) % 32 := by
  simp only [Nat.shiftRight_eq_div_pow]
  norm_num
  omega

theorem decodeMessageCore_position {m : ℕ} (hdf : (m >>> 107) % 32 = 17)
    (h9 : 9 ≤ (m >>> 75) % 32) (h18 : (m >>> 75) % 32 ≤ 18) :
    decodeMessageCore m = some
      { icao := padStart 6 '0' (natToHexMin ((m >>> 80) % 16777216))
        data := some (DecodedData.position
          (decodePosition ((m >>> 24) % 72057594037927936))) } := by
  simp [decodeMessageCore, tc_extract, hdf, h9, h18]

theorem decodeMessageCore_velocity {m : ℕ} (hdf : (m >>> 107) % 32 = 17)
    (htc : (m >>> 75) % 32 = 19) :
    decodeMessageCore m = some
      { icao := padStart 6 '0' (natToHexMin ((m >>> 80) % 16777216))
        data := some (DecodedData.velocity
          (decodeVelocity ((m >>> 24) % 72057594037927936))) } := by
  have h1 : ¬(9 ≤ (m >>> 75) % 32 ∧ (m >>> 75) % 32 ≤ 18) := by omega
  simp [decodeMessageCore, tc_extract, hdf, htc, h1]

theorem decodeMessageCore_null {m : ℕ} (hdf : (m >>> 107) % 32 = 17)
    (htc : (m >>> 75) % 32 < 9 ∨ 20 ≤ (m >>> 75) % 32) :
    decodeMessageCore m = some
      { icao := padStart 6 '0' (natToHexMin ((m >>> 80) % 16777216))
        data := none } := by
  have h1 : ¬(9 ≤ (m >>> 75) % 32 ∧ (m >>> 75) % 32 ≤ 18) := by omega
  have h2 : (m >>> 75) % 32 ≠ 19 := by omega
  simp [decodeMessageCore, tc_extract, hdf, h1, h2]

/-! ### Sum normal form of the simulator's bit packing -/

theorem pack_eq {nicE A La Lo : ℕ} (hnic : nicE < 16) (hA : A < 4096)
    (hLa : La < 131072) (hLo : Lo < 131072) :
    ((((((11 <<< 51) ||| (nicE <<< 47)) ||| (A <<< 35)) ||| (0 <<< 34)) |||
        (0 <<< 33)) ||| (La <<< 16)) ||| Lo
      = 11 * 2 ^ 51 + nicE * 2 ^ 47 + A * 2 ^ 35 +
          (La ||| Lo / 2 ^ 16) * 2 ^ 16 + Lo % 2 ^ 16 := by
  have e34 : (0:ℕ) <<< 34 = 0 := by decide
  have e33 : (0:ℕ) <<< 33 = 0 := by decide
  have h51 : (11:ℕ) <<< 51 ||| nicE <<< 47 = 11 * 2 ^ 51 + nicE * 2 ^ 47 := by
    rw [Nat.shiftLeft_eq, Nat.shiftLeft_eq, show (11:ℕ) * 2 ^ 51 = 2 ^ 51 * 11 by ring,
      lor_eq_add (show nicE * 2 ^ 47 < 2 ^ 51 by omega)]
  have h35 : (11 * 2 ^ 51 + nicE * 2 ^ 47 : ℕ) ||| A <<< 35
      = 11 * 2 ^ 51 + nicE * 2 ^ 47 + A * 2 ^ 35 := by
    rw [Nat.shiftLeft_eq,
      show (11:ℕ) * 2 ^ 51 + nicE * 2 ^ 47 = 2 ^ 47 * (11 * 2 ^ 4 + nicE) by ring,
      lor_eq_add (show A * 2 ^ 35 < 2 ^ 47 by omega)]
  have h16 : (11 * 2 ^ 51 + nicE * 2 ^ 47 + A * 2 ^ 35 : ℕ) ||| La <<< 16
      = 11 * 2 ^ 51 + nicE * 2 ^ 47 + A * 2 ^ 35 + La * 2 ^ 16 := by
    rw [Nat.shiftLeft_eq,
      show (11:ℕ) * 2 ^ 51 + nicE * 2 ^ 47 + A * 2 ^ 35
        = 2 ^ 35 * (11 * 2 ^ 16 + nicE * 2 ^ 12 + A) by ring,
      lor_eq_add (show La * 2 ^ 16 < 2 ^ 35 by omega)]
  rw [e34, e33, Nat.or_zero, Nat.or_zero, h51, h35, h16]
  have hsplit := lor_split 16 (11 * 2 ^ 35 + nicE * 2 ^ 31 + A * 2 ^ 19 + La)
    (Lo / 2 ^ 16) 0 (Lo % 2 ^ 16) (by positivity) (by omega)
  calc (11 * 2 ^ 51 + nicE * 2 ^ 47 + A * 2 ^ 35 + La * 2 ^ 16 : ℕ) ||| Lo
      = (2 ^ 16 * (11 * 2 ^ 35 + nicE * 2 ^ 31 + A * 2 ^ 19 + La) + 0) |||
          (2 ^ 16 * (Lo / 2 ^ 16) + Lo % 2 ^ 16) := by
        congr 1
        · ring
        · omega
    _ = 2 ^ 16 * ((11 * 2 ^ 35 + nicE * 2 ^ 31 + A * 2 ^ 19 + La) ||| Lo / 2 ^ 16) +
          (0 ||| Lo % 2 ^ 16) := hsplit
    _ = 2 ^ 16 * ((11 * 2 ^ 35 + nicE * 2 ^ 31 + A * 2 ^ 19 + La) ||| Lo / 2 ^ 16) +
          Lo % 2 ^ 16 := by rw [Nat.zero_or]
    _ = 11 * 2 ^ 51 + nicE * 2 ^ 47 + A * 2 ^ 35 + (La ||| Lo / 2 ^ 16) * 2 ^ 16 +
          Lo % 2 ^ 16 := by
        rw [show (11:ℕ) * 2 ^ 35 + nicE * 2 ^ 31 + A * 2 ^ 19 + La
            = (11 * 2 ^ 35 + nicE * 2 ^ 31 + A * 2 ^ 19) + La by ring,
          lor_low_bit (by omega) (by omega)]
        ring

/-! ### Sum normal form of `assembleMessage`'s bit packing -/

theorem assemble_msg_eq {icao payload : ℕ} (hicao : icao < 2 ^ 24)
    (hpl : payload < 2 ^ 56) :
    ((((17 <<< 107) ||| (5 <<< 104)) ||| (icao <<< 80)) ||| (payload <<< 24)) ||| 10855845
      = 17 * 2 ^ 107 + 5 * 2 ^ 104 + icao * 2 ^ 80 + payload * 2 ^ 24 + 10855845 := by
  have h1 : (17:ℕ) <<< 107 ||| 5 <<< 104 = 17 * 2 ^ 107 + 5 * 2 ^ 104 := by
    rw [Nat.shiftLeft_eq, Nat.shiftLeft_eq, show (17:ℕ) * 2 ^ 107 = 2 ^ 107 * 17 by ring,
      lor_eq_add (show (5:ℕ) * 2 ^ 104 < 2 ^ 107 by norm_num)]
  have h2 : (17 * 2 ^ 107 + 5 * 2 ^ 104 : ℕ) ||| icao <<< 80
      = 17 * 2 ^ 107 + 5 * 2 ^ 104 + icao * 2 ^ 80 := by
    rw [Nat.shiftLeft_eq,
      show (17:ℕ) * 2 ^ 107 + 5 * 2 ^ 104 = 2 ^ 104 * (17 * 2 ^ 3 + 5) by ring,
      lor_eq_add (show icao * 2 ^ 80 < 2 ^ 104 by omega)]
  have h3 : (17 * 2 ^ 107 + 5 * 2 ^ 104 + icao * 2 ^ 80 : ℕ) ||| payload <<< 24
      = 17 * 2 ^ 107 + 5 * 2 ^ 104 + icao * 2 ^ 80 + payload * 2 ^ 24 := by
    rw [Nat.shiftLeft_eq,
      show (17:ℕ) * 2 ^ 107 + 5 * 2 ^ 104 + icao * 2 ^ 80
        = 2 ^ 80 * (17 * 2 ^ 27 + 5 * 2 ^ 24 + icao) by ring,
      lor_eq_add (show payload * 2 ^ 24 < 2 ^ 80 by omega)]
  have h4 : (17 * 2 ^ 107 + 5 * 2 ^ 104 + icao * 2 ^ 80 + payload * 2 ^ 24 : ℕ) ||| 10855845
      = 17 * 2 ^ 107 + 5 * 2 ^ 104 + icao * 2 ^ 80 + payload * 2 ^ 24 + 10855845 := by
    rw [show (17:ℕ) * 2 ^ 107 + 5 * 2 ^ 104 + icao * 2 ^ 80 + payload * 2 ^ 24
        = 2 ^ 24 * (17 * 2 ^ 83 + 5 * 2 ^ 80 + icao * 2 ^ 56 + payload) by ring,
      lor_eq_add (show (10855845:ℕ) < 2 ^ 24 by norm_num)]
  rw [h1, h2, h3, h4]

theorem hexValAux_isSome (cs : List Char) : ∀ acc : ℕ,
    (∀ c ∈ cs, (hexDigitVal? c).isSome) → ∃ m, hexValAux acc cs = some m := by
  induction cs with
  | nil => intro acc _; exact ⟨acc, rfl⟩
  | cons c cs ih =>
    intro acc hhex
    obtain ⟨d, hd⟩ := Option.isSome_iff_exists.mp (hhex c (by simp))
    rw [hexValAux]
    simp only [hd]
    exact ih _ (fun x hx => hhex x (by simp [hx]))

/-! ### Claim theorems -/

/-- C5 (amended): `decodeMessage` returns `null` for every input whose length
is not exactly 28 characters; 14-character inputs are rejected by the length
gate like any other non-28 length, before any parsing. -/
theorem C5_length_gate (cs : List Char) (h : cs.length ≠ 28) :
    decodeMessage cs = Except.ok none := by
  simp [decodeMessage, h]

/-- C5 witness: a concrete 14-character input is length-rejected. -/
theorem C5_length_gate_witness :
    decodeMessage (List.replicate 14 '0') = Except.ok none :=
  C5_length_gate _ (by decide)

/-- C5 counterexample: the claim says 14-character inputs are accepted by the
length gate and proceed to decoding. In the code every 14-character input
returns `null` straight from the length gate: even a 14-character input made
of non-hex characters returns `Except.ok none` rather than reaching the
(throwing) `BigInt` parse, and a 14-character all-hex payload variant is
likewise rejected instead of being decoded. -/
theorem C5_counterexample :
    decodeMessage (List.replicate 14 'G') = Except.ok none ∧
    decodeMessage (List.replicate 14 '7') = Except.ok none := by
  exact ⟨rfl, rfl⟩

/-- C4 (amended): the downlink-format gate accepts only `df = 17`: any
28-character hex frame with `df ≠ 17` (including `df = 18`) decodes to
`null`, and every frame with `df = 17` passes the gate (the result is a
non-`null` record). -/
theorem C4_df_gate (cs : List Char) (m : ℕ) (h28 : cs.length = 28)
    (hv : hexVal? cs = some m) :
    ((m >>> 107) % 32 ≠ 17 → decodeMessage cs = Except.ok none) ∧
    ((m >>> 107) % 32 = 17 →
      decodeMessage cs = Except.ok (decodeMessageCore m) ∧ decodeMessageCore m ≠ none) := by
  constructor
  · intro hdf
    rw [decodeMessage_parsed h28 hv, decodeMessageCore_not17 hdf]
  · intro hdf
    refine ⟨decodeMessage_parsed h28 hv, ?_⟩
    by_cases h9 : 9 ≤ (m >>> 75) % 32 ∧ (m >>> 75) % 32 ≤ 18
    · rw [decodeMessageCore_position hdf h9.1 h9.2]; simp
    · by_cases h19 : (m >>> 75) % 32 = 19
      · rw [decodeMessageCore_velocity hdf h19]; simp
      · rw [decodeMessageCore_null hdf (by omega)]; simp

/-- C4 witness: the all-zero frame has `df = 0 ≠ 17` and decodes to `null`. -/
theorem C4_df_gate_witness :
    decodeMessage (List.replicate 28 '0') = Except.ok none :=
  (C4_df_gate (List.replicate 28 '0') 0 (by decide) (by decide)).1 (by decide)

/-- C4 counterexample: the claim says frames with `df = 18` pass the
downlink-format gate. A concrete `df = 18` frame decodes to `null`
(`decodeMessage` checks `df !== 17` only, so DF18 is rejected). -/
theorem C4_counterexample :
    decodeMessage (natToHexDigits 28 (18 * 2 ^ 107)) = Except.ok none := by
  rw [decodeMessage_parsed (natToHexDigits_length 28 _)
      (hexVal_natToHexDigits (by norm_num)),
    decodeMessageCore_not17 (by decide)]

/-- C9 (confirmed): for every 28-character string of hex digits, including
the all-zero and all-one bit patterns, `decodeMessage` returns a value and
never throws (the `BigInt` parse is the only fallible step and it succeeds on
hex digits; every decode branch is total). -/
theorem C9_no_exception (cs : List Char) (h28 : cs.length = 28)
    (hhex : ∀ c ∈ cs, (hexDigitVal? c).isSome) :
    decodeMessage cs ≠ Except.error () := by
  obtain ⟨m, hm⟩ := hexValAux_isSome cs 0 hhex
  rw [decodeMessage_parsed h28 hm]
  simp

/-- C9 witness: the all-one 112-bit pattern (28 'F' characters) decodes
without throwing. -/
theorem C9_no_exception_witness :
    decodeMessage (List.replicate 28 'F') ≠ Except.error () :=
  C9_no_exception _ (by decide) (by decide)

/-- C1 (amended): the decoder keeps no CPR cache and no reference position;
every accepted airborne-position frame — in particular a first, unpaired
frame for an ICAO — decodes statelessly to the simplified linear mapping
`lat = latEnc/131071·180 − 90`, `lng = lngEnc/131071·360 − 180`, and the
unresolved sentinel `(0, 0)` is never returned (the decoded latitude can
never equal 0). -/
theorem C1_no_sentinel (cs : List Char) (m : ℕ) (h28 : cs.length = 28)
    (hv : hexVal? cs = some m) (hdf : (m >>> 107) % 32 = 17)
    (h9 : 9 ≤ (m >>> 75) % 32) (h18 : (m >>> 75) % 32 ≤ 18) :
    decodeMessage cs = Except.ok (some
      { icao := padStart 6 '0' (natToHexMin ((m >>> 80) % 16777216))
        data := some (DecodedData.position
          (decodePosition ((m >>> 24) % 72057594037927936))) }) ∧
    (decodePosition ((m >>> 24) % 72057594037927936)).lat
      = (((m >>> 40) % 131072 : ℕ) : ℚ) / 131071 * 180 - 90 ∧
    (decodePosition ((m >>> 24) % 72057594037927936)).lng
      = (((m >>> 24) % 131072 : ℕ) : ℚ) / 131071 * 360 - 180 ∧
    ¬((decodePosition ((m >>> 24) % 72057594037927936)).lat = 0 ∧
      (decodePosition ((m >>> 24) % 72057594037927936)).lng = 0) := by
  have hlatx : (((m >>> 24) % 72057594037927936) >>> 16) % 131072
      = (m >>> 40) % 131072 := by
    simp only [Nat.shiftRight_eq_div_pow]
    norm_num
    omega
  have hlngx : ((m >>> 24) % 72057594037927936) % 131072 = (m >>> 24) % 131072 :=
    Nat.mod_mod_of_dvd _ (by norm_num)
  refine ⟨?_, ?_, ?_, ?_⟩
  · rw [decodeMessage_parsed h28 hv, decodeMessageCore_position hdf h9 h18]
  · simp [decodePosition, hlatx]
  · simp [decodePosition, hlngx]
  · rintro ⟨hla, -⟩
    simp only [decodePosition] at hla
    set L := (((m >>> 24) % 72057594037927936) >>> 16) % 131072 with hL
    have h1 : (L : ℚ) * 180 = 90 * 131071 := by
      have : (L : ℚ) / 131071 * 180 - 90 = 0 := hla
      field_simp at this
      linarith
    have h2 : L * 180 = 90 * 131071 := by exact_mod_cast h1
    omega

/-- C1 witness: a concrete accepted position frame (type code 11, all other
payload bits zero) decodes to a non-sentinel position. -/
theorem C1_no_sentinel_witness :
    decodeMessage (natToHexDigits 28 (17 * 2 ^ 107 + 11 * 2 ^ 75)) = Except.ok (some
      { icao := padStart 6 '0' (natToHexMin
          (((17 * 2 ^ 107 + 11 * 2 ^ 75) >>> 80) % 16777216))
        data := some (DecodedData.position
          (decodePosition (((17 * 2 ^ 107 + 11 * 2 ^ 75) >>> 24)
            % 72057594037927936))) }) ∧
    (decodePosition (((17 * 2 ^ 107 + 11 * 2 ^ 75) >>> 24) % 72057594037927936)).lat
      = ((((17 * 2 ^ 107 + 11 * 2 ^ 75) >>> 40) % 131072 : ℕ) : ℚ) / 131071 * 180 - 90 ∧
    (decodePosition (((17 * 2 ^ 107 + 11 * 2 ^ 75) >>> 24) % 72057594037927936)).lng
      = ((((17 * 2 ^ 107 + 11 * 2 ^ 75) >>> 24) % 131072 : ℕ) : ℚ) / 131071 * 360 - 180 ∧
    ¬((decodePosition (((17 * 2 ^ 107 + 11 * 2 ^ 75) >>> 24) % 72057594037927936)).lat = 0 ∧
      (decodePosition (((17 * 2 ^ 107 + 11 * 2 ^ 75) >>> 24) % 72057594037927936)).lng = 0) :=
  C1_no_sentinel (natToHexDigits 28 (17 * 2 ^ 107 + 11 * 2 ^ 75)) _
    (natToHexDigits_length 28 _) (hexVal_natToHexDigits (by norm_num))
    (by decide) (by decide) (by decide)

/-- C1 counterexample: the claim says a single position frame for an ICAO
with no cached opposite-parity frame and no reference position decodes to
the sentinel `(0, 0)`. The decoder is stateless: this concrete first-and-only
frame (type code 11, all payload fields zero) decodes to `(−90, −180)`, a
computed position, not the sentinel. -/
theorem C1_counterexample :
    decodeMessage (natToHexDigits 28 (17 * 2 ^ 107 + 11 * 2 ^ 75)) = Except.ok (some
      { icao := ['0', '0', '0', '0', '0', '0']
        data := some (DecodedData.position
          { lat := -90, lng := -180, altitude := -1000, nic := 0 }) }) ∧
    ¬((-90 : ℚ) = 0 ∧ (-180 : ℚ) = 0) := by
  have hic : ((17 * 2 ^ 107 + 11 * 2 ^ 75) >>> 80) % 16777216 = 0 := by decide
  have hpl : ((17 * 2 ^ 107 + 11 * 2 ^ 75) >>> 24) % 72057594037927936
      = 11 * 2 ^ 51 := by decide
  have hlat0 : ((11 * 2 ^ 51 : ℕ) >>> 16) % 131072 = 0 := by decide
  have hlng0 : (11 * 2 ^ 51 : ℕ) % 131072 = 0 := by decide
  have halt0 : ((11 * 2 ^ 51 : ℕ) >>> 35) % 4096 = 0 := by decide
  have hnic0 : ((11 * 2 ^ 51 : ℕ) >>> 47) % 16 = 0 := by decide
  have hrec : decodePosition (11 * 2 ^ 51) =
      { lat := -90, lng := -180, altitude := -1000, nic := 0 } := by
    unfold decodePosition
    rw [hlat0, hlng0, halt0, hnic0]
    simp only [DecodedPosition.mk.injEq]
    norm_num
  constructor
  · rw [decodeMessage_parsed (natToHexDigits_length 28 _)
        (hexVal_natToHexDigits (by norm_num)),
      decodeMessageCore_position (by decide) (by decide) (by decide),
      hic, hpl, hrec]
    rfl
  · norm_num

/-- C3 (amended): for accepted frames (which requires `df = 17`; DF18 frames
are rejected by the DF gate, see C4) the dispatch on the type code is:
9–18 → position payload, 19 → velocity payload, and every other type code —
including 1–4 (identification in the spec) and 20–22 (GNSS position in the
spec) — yields a result with the recognized icao and `null` data. -/
theorem C3_dispatch (cs : List Char) (m : ℕ) (h28 : cs.length = 28)
    (hv : hexVal? cs = some m) (hdf : (m >>> 107) % 32 = 17) :
    (9 ≤ (m >>> 75) % 32 ∧ (m >>> 75) % 32 ≤ 18 →
      decodeMessage cs = Except.ok (some
        { icao := padStart 6 '0' (natToHexMin ((m >>> 80) % 16777216))
          data := some (DecodedData.position
            (decodePosition ((m >>> 24) % 72057594037927936))) })) ∧
    ((m >>> 75) % 32 = 19 →
      decodeMessage cs = Except.ok (some
        { icao := padStart 6 '0' (natToHexMin ((m >>> 80) % 16777216))
          data := some (DecodedData.velocity
            (decodeVelocity ((m >>> 24) % 72057594037927936))) })) ∧
    ((m >>> 75) % 32 < 9 ∨ 20 ≤ (m >>> 75) % 32 →
      decodeMessage cs = Except.ok (some
        { icao := padStart 6 '0' (natToHexMin ((m >>> 80) % 16777216))
          data := none })) := by
  refine ⟨fun h => ?_, fun h => ?_, fun h => ?_⟩
  · rw [decodeMessage_parsed h28 hv, decodeMessageCore_position hdf h.1 h.2]
  · rw [decodeMessage_parsed h28 hv, decodeMessageCore_velocity hdf h]
  · rw [decodeMessage_parsed h28 hv, decodeMessageCore_null hdf h]

/-- C3 witness: a concrete type-code-1 DF17 frame takes the `null`-data
branch. -/
theorem C3_dispatch_witness :
    decodeMessage (natToHexDigits 28 (17 * 2 ^ 107 + 2 ^ 75)) = Except.ok (some
      { icao := padStart 6 '0' (natToHexMin
          (((17 * 2 ^ 107 + 2 ^ 75) >>> 80) % 16777216))
        data := none }) :=
  (C3_dispatch (natToHexDigits 28 (17 * 2 ^ 107 + 2 ^ 75)) _
    (natToHexDigits_length 28 _) (hexVal_natToHexDigits (by norm_num))
    (by decide)).2.2 (by decide)

/-- C3 counterexample: the claim says type codes 1–4 yield an Identification
payload. A concrete DF17 frame with type code 1 decodes to `null` data (no
identification record — the decoder has no identification branch at all). -/
theorem C3_counterexample :
    decodeMessage (natToHexDigits 28 (17 * 2 ^ 107 + 2 ^ 75)) = Except.ok (some
      { icao := ['0', '0', '0', '0', '0', '0'], data := none }) := by
  have hic : ((17 * 2 ^ 107 + 2 ^ 75) >>> 80) % 16777216 = 0 := by decide
  rw [decodeMessage_parsed (natToHexDigits_length 28 _)
      (hexVal_natToHexDigits (by norm_num)),
    decodeMessageCore_null (by decide) (by decide), hic]
  rfl

/-- C6 (amended): the decoder applies no Q-bit test and no bit splicing: for
every accepted position frame the decoded altitude is `altBits·25 − 1000`
where `altBits` is the raw 12-bit field (payload bits 35–46, message bits
59–70), for all `altBits` regardless of bit 4 (the Q-bit). -/
theorem C6_altitude_raw (cs : List Char) (m : ℕ) (h28 : cs.length = 28)
    (hv : hexVal? cs = some m) (hdf : (m >>> 107) % 32 = 17)
    (h9 : 9 ≤ (m >>> 75) % 32) (h18 : (m >>> 75) % 32 ≤ 18) :
    decodeMessage cs = Except.ok (some
      { icao := padStart 6 '0' (natToHexMin ((m >>> 80) % 16777216))
        data := some (DecodedData.position
          (decodePosition ((m >>> 24) % 72057594037927936))) }) ∧
    (decodePosition ((m >>> 24) % 72057594037927936)).altitude
      = (((m >>> 59) % 4096 : ℕ) : ℤ) * 25 - 1000 := by
  have hx : (((m >>> 24) % 72057594037927936) >>> 35) % 4096 = (m >>> 59) % 4096 := by
    simp only [Nat.shiftRight_eq_div_pow]
    norm_num
    omega
  exact ⟨by rw [decodeMessage_parsed h28 hv, decodeMessageCore_position hdf h9 h18],
    by simp [decodePosition, hx]⟩

/-- C6 witness: a concrete frame with raw altitude field 16 decodes to
`16·25 − 1000 = −600`. -/
theorem C6_altitude_raw_witness :
    decodeMessage (natToHexDigits 28 (17 * 2 ^ 107 + 11 * 2 ^ 75 + 16 * 2 ^ 59))
      = Except.ok (some
        { icao := padStart 6 '0' (natToHexMin
            (((17 * 2 ^ 107 + 11 * 2 ^ 75 + 16 * 2 ^ 59) >>> 80) % 16777216))
          data := some (DecodedData.position
            (decodePosition (((17 * 2 ^ 107 + 11 * 2 ^ 75 + 16 * 2 ^ 59) >>> 24)
              % 72057594037927936))) }) ∧
    (decodePosition (((17 * 2 ^ 107 + 11 * 2 ^ 75 + 16 * 2 ^ 59) >>> 24)
        % 72057594037927936)).altitude
      = ((((17 * 2 ^ 107 + 11 * 2 ^ 75 + 16 * 2 ^ 59) >>> 59) % 4096 : ℕ) : ℤ) * 25
          - 1000 :=
  C6_altitude_raw (natToHexDigits 28 (17 * 2 ^ 107 + 11 * 2 ^ 75 + 16 * 2 ^ 59)) _
    (natToHexDigits_length 28 _) (hexVal_natToHexDigits (by norm_num))
    (by decide) (by decide) (by decide)

/-- C6 counterexample: the claim says a frame whose altitude field has the
Q-bit set decodes to `n·25 − 1000` with `n = (altBits>>5)<<4 ∣ (altBits&0xF)`.
For `altBits = 16` (only the Q-bit set) the claim predicts `n = 0`, altitude
`−1000`; the code decodes `16·25 − 1000 = −600`. -/
theorem C6_counterexample :
    decodeMessage (natToHexDigits 28 (17 * 2 ^ 107 + 11 * 2 ^ 75 + 16 * 2 ^ 59))
      = Except.ok (some
        { icao := ['0', '0', '0', '0', '0', '0']
          data := some (DecodedData.position
            { lat := -90, lng := -180, altitude := -600, nic := 0 }) }) ∧
    ((16 >>> 5) <<< 4 ||| 16 % 16 : ℕ) = 0 ∧
    (-600 : ℤ) ≠ (0 : ℤ) * 25 - 1000 := by
  have hic : ((17 * 2 ^ 107 + 11 * 2 ^ 75 + 16 * 2 ^ 59) >>> 80) % 16777216 = 0 := by
    decide
  have hpl : ((17 * 2 ^ 107 + 11 * 2 ^ 75 + 16 * 2 ^ 59) >>> 24) % 72057594037927936
      = 11 * 2 ^ 51 + 16 * 2 ^ 35 := by decide
  have hrec : decodePosition (11 * 2 ^ 51 + 16 * 2 ^ 35) =
      { lat := -90, lng := -180, altitude := -600, nic := 0 } := by
    have h1 : ((11 * 2 ^ 51 + 16 * 2 ^ 35 : ℕ) >>> 16) % 131072 = 0 := by decide
    have h2 : (11 * 2 ^ 51 + 16 * 2 ^ 35 : ℕ) % 131072 = 0 := by decide
    have h3 : ((11 * 2 ^ 51 + 16 * 2 ^ 35 : ℕ) >>> 35) % 4096 = 16 := by decide
    have h4 : ((11 * 2 ^ 51 + 16 * 2 ^ 35 : ℕ) >>> 47) % 16 = 0 := by decide
    unfold decodePosition
    rw [h1, h2, h3, h4]
    simp only [DecodedPosition.mk.injEq]
    norm_num
  refine ⟨?_, by decide, by norm_num⟩
  rw [decodeMessage_parsed (natToHexDigits_length 28 _)
      (hexVal_natToHexDigits (by norm_num)),
    decodeMessageCore_position (by decide) (by decide) (by decide), hic, hpl, hrec]
  rfl

/-- C7 (amended): the decoded `nic` is not the spec's type-code table: it is
the raw 4-bit field at payload bits 47–50 (message bits 71–74), whatever the
type code is. -/
theorem C7_nic_field (cs : List Char) (m : ℕ) (h28 : cs.length = 28)
    (hv : hexVal? cs = some m) (hdf : (m >>> 107) % 32 = 17)
    (h9 : 9 ≤ (m >>> 75) % 32) (h18 : (m >>> 75) % 32 ≤ 18) :
    decodeMessage cs = Except.ok (some
      { icao := padStart 6 '0' (natToHexMin ((m >>> 80) % 16777216))
        data := some (DecodedData.position
          (decodePosition ((m >>> 24) % 72057594037927936))) }) ∧
    (decodePosition ((m >>> 24) % 72057594037927936)).nic = (m >>> 71) % 16 := by
  have hx : (((m >>> 24) % 72057594037927936) >>> 47) % 16 = (m >>> 71) % 16 := by
    simp only [Nat.shiftRight_eq_div_pow]
    norm_num
    omega
  exact ⟨by rw [decodeMessage_parsed h28 hv, decodeMessageCore_position hdf h9 h18],
    by simp [decodePosition, hx]⟩

/-- C7 witness: a concrete type-code-9 frame with nic field 5 decodes with
`nic = 5`. -/
theorem C7_nic_field_witness :
    decodeMessage (natToHexDigits 28 (17 * 2 ^ 107 + 9 * 2 ^ 75 + 5 * 2 ^ 71))
      = Except.ok (some
        { icao := padStart 6 '0' (natToHexMin
            (((17 * 2 ^ 107 + 9 * 2 ^ 75 + 5 * 2 ^ 71) >>> 80) % 16777216))
          data := some (DecodedData.position
            (decodePosition (((17 * 2 ^ 107 + 9 * 2 ^ 75 + 5 * 2 ^ 71) >>> 24)
              % 72057594037927936))) }) ∧
    (decodePosition (((17 * 2 ^ 107 + 9 * 2 ^ 75 + 5 * 2 ^ 71) >>> 24)
        % 72057594037927936)).nic
      = (((17 * 2 ^ 107 + 9 * 2 ^ 75 + 5 * 2 ^ 71) >>> 71) % 16) :=
  C7_nic_field (natToHexDigits 28 (17 * 2 ^ 107 + 9 * 2 ^ 75 + 5 * 2 ^ 71)) _
    (natToHexDigits_length 28 _) (hexVal_natToHexDigits (by norm_num))
    (by decide) (by decide) (by decide)

/-- C7 counterexample: the claim's table maps type code 9 to NIC 11. A
concrete type-code-9 frame whose raw nic field holds 5 decodes with
`nic = 5 ≠ 11`: the nic is not a function of the type code. -/
theorem C7_counterexample :
    decodeMessage (natToHexDigits 28 (17 * 2 ^ 107 + 9 * 2 ^ 75 + 5 * 2 ^ 71))
      = Except.ok (some
        { icao := ['0', '0', '0', '0', '0', '0']
          data := some (DecodedData.position
            { lat := -90, lng := -180, altitude := -1000, nic := 5 }) }) ∧
    (5 : ℕ) ≠ 11 := by
  have hic : ((17 * 2 ^ 107 + 9 * 2 ^ 75 + 5 * 2 ^ 71) >>> 80) % 16777216 = 0 := by
    decide
  have hpl : ((17 * 2 ^ 107 + 9 * 2 ^ 75 + 5 * 2 ^ 71) >>> 24) % 72057594037927936
      = 9 * 2 ^ 51 + 5 * 2 ^ 47 := by decide
  have hrec : decodePosition (9 * 2 ^ 51 + 5 * 2 ^ 47) =
      { lat := -90, lng := -180, altitude := -1000, nic := 5 } := by
    have h1 : ((9 * 2 ^ 51 + 5 * 2 ^ 47 : ℕ) >>> 16) % 131072 = 0 := by decide
    have h2 : (9 * 2 ^ 51 + 5 * 2 ^ 47 : ℕ) % 131072 = 0 := by decide
    have h3 : ((9 * 2 ^ 51 + 5 * 2 ^ 47 : ℕ) >>> 35) % 4096 = 0 := by decide
    have h4 : ((9 * 2 ^ 51 + 5 * 2 ^ 47 : ℕ) >>> 47) % 16 = 5 := by decide
    unfold decodePosition
    rw [h1, h2, h3, h4]
    simp only [DecodedPosition.mk.injEq]
    norm_num
  refine ⟨?_, by norm_num⟩
  rw [decodeMessage_parsed (natToHexDigits_length 28 _)
      (hexVal_natToHexDigits (by norm_num)),
    decodeMessageCore_position (by decide) (by decide) (by decide), hic, hpl, hrec]
  rfl

/-- C10 (confirmed): for every accepted position frame the decoded `nic` is
the raw, unclamped 4-bit field at payload bits 47–50, and every value in
`[0, 15]` — including 12–15, outside the 0–11 NIC domain — is attained by
some frame. -/
theorem C10_nic_unclamped :
    (∀ (cs : List Char) (m : ℕ), cs.length = 28 → hexVal? cs = some m →
      (m >>> 107) % 32 = 17 → 9 ≤ (m >>> 75) % 32 → (m >>> 75) % 32 ≤ 18 →
      decodeMessage cs = Except.ok (some
        { icao := padStart 6 '0' (natToHexMin ((m >>> 80) % 16777216))
          data := some (DecodedData.position
            (decodePosition ((m >>> 24) % 72057594037927936))) }) ∧
      (decodePosition ((m >>> 24) % 72057594037927936)).nic = (m >>> 71) % 16) ∧
    (∀ v : ℕ, v < 16 →
      decodeMessage (natToHexDigits 28 (17 * 2 ^ 107 + 11 * 2 ^ 75 + v * 2 ^ 71))
        = Except.ok (some
          { icao := ['0', '0', '0', '0', '0', '0']
            data := some (DecodedData.position
              { lat := -90, lng := -180, altitude := -1000, nic := v }) })) := by
  constructor
  · intro cs m h28 hv hdf h9 h18
    have hx : (((m >>> 24) % 72057594037927936) >>> 47) % 16 = (m >>> 71) % 16 := by
      simp only [Nat.shiftRight_eq_div_pow]
      norm_num
      omega
    exact ⟨by rw [decodeMessage_parsed h28 hv, decodeMessageCore_position hdf h9 h18],
      by simp [decodePosition, hx]⟩
  · intro v hv
    have hlt : 17 * 2 ^ 107 + 11 * 2 ^ 75 + v * 2 ^ 71 < 16 ^ 28 := by omega
    have hdf : ((17 * 2 ^ 107 + 11 * 2 ^ 75 + v * 2 ^ 71) >>> 107) % 32 = 17 := by
      simp only [Nat.shiftRight_eq_div_pow]
      omega
    have htc : ((17 * 2 ^ 107 + 11 * 2 ^ 75 + v * 2 ^ 71) >>> 75) % 32 = 11 := by
      simp only [Nat.shiftRight_eq_div_pow]
      omega
    have hic : ((17 * 2 ^ 107 + 11 * 2 ^ 75 + v * 2 ^ 71) >>> 80) % 16777216 = 0 := by
      simp only [Nat.shiftRight_eq_div_pow]
      omega
    have hpl : ((17 * 2 ^ 107 + 11 * 2 ^ 75 + v * 2 ^ 71) >>> 24) % 72057594037927936
        = 11 * 2 ^ 51 + v * 2 ^ 47 := by
      simp only [Nat.shiftRight_eq_div_pow]
      omega
    have hrec : decodePosition (11 * 2 ^ 51 + v * 2 ^ 47) =
        { lat := -90, lng := -180, altitude := -1000, nic := v } := by
      have h1 : ((11 * 2 ^ 51 + v * 2 ^ 47 : ℕ) >>> 16) % 131072 = 0 := by
        simp only [Nat.shiftRight_eq_div_pow]
        omega
      have h2 : (11 * 2 ^ 51 + v * 2 ^ 47 : ℕ) % 131072 = 0 := by omega
      have h3 : ((11 * 2 ^ 51 + v * 2 ^ 47 : ℕ) >>> 35) % 4096 = 0 := by
        simp only [Nat.shiftRight_eq_div_pow]
        omega
      have h4 : ((11 * 2 ^ 51 + v * 2 ^ 47 : ℕ) >>> 47) % 16 = v := by
        simp only [Nat.shiftRight_eq_div_pow]
        omega
      unfold decodePosition
      rw [h1, h2, h3, h4]
      simp only [DecodedPosition.mk.injEq]
      norm_num
    rw [decodeMessage_parsed (natToHexDigits_length 28 _) (hexVal_natToHexDigits hlt),
      decodeMessageCore_position hdf (by omega) (by omega), hic, hpl, hrec]
    rfl

/-- C10 witness: a frame whose raw nic field holds 13 (outside the NIC
domain 0–11) decodes with `nic = 13`. -/
theorem C10_nic_unclamped_witness :
    decodeMessage (natToHexDigits 28 (17 * 2 ^ 107 + 11 * 2 ^ 75 + 13 * 2 ^ 71))
      = Except.ok (some
        { icao := ['0', '0', '0', '0', '0', '0']
          data := some (DecodedData.position
            { lat := -90, lng := -180, altitude := -1000, nic := 13 }) }) :=
  C10_nic_unclamped.2 13 (by norm_num)

/-- C8 (amended): `decodeVelocity` ignores the spec's subtype and
direction/magnitude layout entirely and never rejects: for every accepted
type-code-19 frame it returns a velocity record with `speed` equal to the
raw 10-bit field at payload bits 30–39 and
`heading = (raw 7-bit field at payload bits 20–26)/127·360`. -/
theorem C8_velocity_raw (cs : List Char) (m : ℕ) (h28 : cs.length = 28)
    (hv : hexVal? cs = some m) (hdf : (m >>> 107) % 32 = 17)
    (htc : (m >>> 75) % 32 = 19) :
    decodeMessage cs = Except.ok (some
      { icao := padStart 6 '0' (natToHexMin ((m >>> 80) % 16777216))
        data := some (DecodedData.velocity
          (decodeVelocity ((m >>> 24) % 72057594037927936))) }) ∧
    (decodeVelocity ((m >>> 24) % 72057594037927936)).speed = (m >>> 54) % 1024 ∧
    (decodeVelocity ((m >>> 24) % 72057594037927936)).heading
      = (((m >>> 44) % 128 : ℕ) : ℚ) / 127 * 360 := by
  have hs : (((m >>> 24) % 72057594037927936) >>> 30) % 1024 = (m >>> 54) % 1024 := by
    simp only [Nat.shiftRight_eq_div_pow]
    norm_num
    omega
  have hh : (((m >>> 24) % 72057594037927936) >>> 20) % 128 = (m >>> 44) % 128 := by
    simp only [Nat.shiftRight_eq_div_pow]
    norm_num
    omega
  exact ⟨by rw [decodeMessage_parsed h28 hv, decodeMessageCore_velocity hdf htc],
    by simp [decodeVelocity, hs], by simp [decodeVelocity, hh]⟩

/-- C8 witness: a concrete type-code-19 frame decodes to the raw-field
velocity record. -/
theorem C8_velocity_raw_witness :
    decodeMessage (natToHexDigits 28 (17 * 2 ^ 107 + 19 * 2 ^ 75 + 2 ^ 72))
      = Except.ok (some
        { icao := padStart 6 '0' (natToHexMin
            (((17 * 2 ^ 107 + 19 * 2 ^ 75 + 2 ^ 72) >>> 80) % 16777216))
          data := some (DecodedData.velocity
            (decodeVelocity (((17 * 2 ^ 107 + 19 * 2 ^ 75 + 2 ^ 72) >>> 24)
              % 72057594037927936))) }) ∧
    (decodeVelocity (((17 * 2 ^ 107 + 19 * 2 ^ 75 + 2 ^ 72) >>> 24)
        % 72057594037927936)).speed
      = ((17 * 2 ^ 107 + 19 * 2 ^ 75 + 2 ^ 72) >>> 54) % 1024 ∧
    (decodeVelocity (((17 * 2 ^ 107 + 19 * 2 ^ 75 + 2 ^ 72) >>> 24)
        % 72057594037927936)).heading
      = ((((17 * 2 ^ 107 + 19 * 2 ^ 75 + 2 ^ 72) >>> 44) % 128 : ℕ) : ℚ) / 127 * 360 :=
  C8_velocity_raw (natToHexDigits 28 (17 * 2 ^ 107 + 19 * 2 ^ 75 + 2 ^ 72)) _
    (natToHexDigits_length 28 _) (hexVal_natToHexDigits (by norm_num))
    (by decide) (by decide)

/-- C8 counterexample: the claim says a subtype-1 velocity frame is rejected
when either raw magnitude field is 0. This concrete type-code-19, subtype-1
frame has both of the spec's raw magnitude fields equal to 0, yet the decoder
returns a velocity record (speed 0, heading 0) instead of rejecting. -/
theorem C8_counterexample :
    specVelEWMag (((17 * 2 ^ 107 + 19 * 2 ^ 75 + 2 ^ 72) >>> 24)
      % 72057594037927936) = 0 ∧
    specVelNSMag (((17 * 2 ^ 107 + 19 * 2 ^ 75 + 2 ^ 72) >>> 24)
      % 72057594037927936) = 0 ∧
    decodeMessage (natToHexDigits 28 (17 * 2 ^ 107 + 19 * 2 ^ 75 + 2 ^ 72))
      = Except.ok (some
        { icao := ['0', '0', '0', '0', '0', '0']
          data := some (DecodedData.velocity { speed := 0, heading := 0 }) }) := by
  have hic : ((17 * 2 ^ 107 + 19 * 2 ^ 75 + 2 ^ 72) >>> 80) % 16777216 = 0 := by decide
  have hpl : ((17 * 2 ^ 107 + 19 * 2 ^ 75 + 2 ^ 72) >>> 24) % 72057594037927936
      = 19 * 2 ^ 51 + 2 ^ 48 := by decide
  have hrec : decodeVelocity (19 * 2 ^ 51 + 2 ^ 48) = { speed := 0, heading := 0 } := by
    have h1 : ((19 * 2 ^ 51 + 2 ^ 48 : ℕ) >>> 30) % 1024 = 0 := by decide
    have h2 : ((19 * 2 ^ 51 + 2 ^ 48 : ℕ) >>> 20) % 128 = 0 := by decide
    unfold decodeVelocity
    rw [h1, h2]
    simp only [DecodedVelocity.mk.injEq]
    norm_num
  refine ⟨by rw [hpl]; decide, by rw [hpl]; decide, ?_⟩
  rw [decodeMessage_parsed (natToHexDigits_length 28 _)
      (hexVal_natToHexDigits (by norm_num)),
    decodeMessageCore_velocity (by decide) (by decide), hic, hpl, hrec]
  rfl

/-- C2 (amended): the encode/decode round trip holds — non-null result of
type position, nic preserved, altitude within one 25 ft step, lat and lng
within one 17-bit quantization step — provided additionally that the encoded
latitude field's low bit and the encoded longitude field's top bit do not
collide: the simulator ORs the 17-bit latitude field shifted by 16 over the
17-bit longitude field, so payload bit 16 is shared, and when `latEnc` is odd
while `lngEnc < 2^16` the decoded longitude gains `2^16` (≈180°). Under
`¬(latEnc odd ∧ lngEnc < 65536)` the round trip is within the claimed
tolerances. -/
theorem C2_roundtrip (icaoInt : ℕ) (lat lng alt : ℚ) (nic : ℕ)
    (hicao : icaoInt < 16777216) (hnic : nic ≤ 11)
    (hlat1 : -90 ≤ lat) (hlat2 : lat ≤ 90)
    (hlng1 : -180 ≤ lng) (hlng2 : lng ≤ 180)
    (halt1 : 0 ≤ ⌊(alt + 1000) / 25⌋) (halt2 : ⌊(alt + 1000) / 25⌋ ≤ 4095)
    (hbit : ¬(⌊(lat + 90) / 180 * 131071⌋ % 2 = 1 ∧
      ⌊(lng + 180) / 360 * 131071⌋ < 65536)) :
    decodeMessage (generatePositionMessage icaoInt lat lng alt nic)
      = Except.ok (some
        { icao := padStart 6 '0' (natToHexMin icaoInt)
          data := some (DecodedData.position
            (roundTripPosition icaoInt lat lng alt nic)) }) ∧
    (roundTripPosition icaoInt lat lng alt nic).nic = nic ∧
    |((roundTripPosition icaoInt lat lng alt nic).altitude : ℚ) - alt| < 25 ∧
    |(roundTripPosition icaoInt lat lng alt nic).lat - lat| ≤ 180 / 131071 ∧
    |(roundTripPosition icaoInt lat lng alt nic).lng - lng| ≤ 360 / 131071 := by
  set E := (lat + 90) / 180 * 131071 with hEdef
  set F := (lng + 180) / 360 * 131071 with hFdef
  set A : ℤ := ⌊(alt + 1000) / 25⌋ with hAdef
  set L : ℤ := ⌊E⌋ with hLdef
  set G : ℤ := ⌊F⌋ with hGdef
  have hE0 : (0:ℚ) ≤ E := by
    rw [hEdef]
    exact mul_nonneg (div_nonneg (by linarith) (by norm_num)) (by norm_num)
  have hE1 : E ≤ 131071 := by
    rw [hEdef, div_mul_eq_mul_div, div_le_iff (by norm_num : (0:ℚ) < 180)]
    linarith
  have hF0 : (0:ℚ) ≤ F := by
    rw [hFdef]
    exact mul_nonneg (div_nonneg (by linarith) (by norm_num)) (by norm_num)
  have hF1 : F ≤ 131071 := by
    rw [hFdef, div_mul_eq_mul_div, div_le_iff (by norm_num : (0:ℚ) < 360)]
    linarith
  have hL0 : 0 ≤ L := by rw [hLdef]; exact Int.floor_nonneg.mpr hE0
  have hL1 : L ≤ 131071 := by
    have h : ((L:ℤ):ℚ) ≤ 131071 := by
      rw [hLdef]
      exact le_trans (Int.floor_le E) hE1
    exact_mod_cast h
  have hG0 : 0 ≤ G := by rw [hGdef]; exact Int.floor_nonneg.mpr hF0
  have hG1 : G ≤ 131071 := by
    have h : ((G:ℤ):ℚ) ≤ 131071 := by
      rw [hGdef]
      exact le_trans (Int.floor_le F) hF1
    exact_mod_cast h
  set An := A.toNat with hAndef
  set Lan := L.toNat with hLandef
  set Lon := G.toNat with hLondef
  have hAc : (An:ℤ) = A := Int.toNat_of_nonneg halt1
  have hLc : (Lan:ℤ) = L := Int.toNat_of_nonneg hL0
  have hGc : (Lon:ℤ) = G := Int.toNat_of_nonneg hG0
  have hAn : An ≤ 4095 := by omega
  have hLanB : Lan ≤ 131071 := by omega
  have hLonB : Lon ≤ 131071 := by omega
  have hjsA : jsAnd A 12 = An := by
    simp only [jsAnd]
    rw [Int.emod_eq_of_lt halt1 (show A < 2 ^ 12 by omega)]
  have hjsL : jsAnd L 17 = Lan := by
    simp only [jsAnd]
    rw [Int.emod_eq_of_lt hL0 (show L < 2 ^ 17 by omega)]
  have hjsG : jsAnd G 17 = Lon := by
    simp only [jsAnd]
    rw [Int.emod_eq_of_lt hG0 (show G < 2 ^ 17 by omega)]
  have hnic16 : nic % 16 = nic := by omega
  have hbitN : ¬(Lan % 2 = 1 ∧ Lon < 65536) := by
    rintro ⟨h1, h2⟩
    exact hbit ⟨by omega, by omega⟩
  have hpay : generatePayload lat lng alt nic
      = 11 * 2 ^ 51 + nic * 2 ^ 47 + An * 2 ^ 35 +
          (Lan ||| Lon / 2 ^ 16) * 2 ^ 16 + Lon % 2 ^ 16 := by
    simp only [generatePayload]
    rw [← hEdef, ← hFdef, ← hAdef, ← hLdef, ← hGdef, hjsA, hjsL, hjsG, hnic16]
    exact pack_eq (by omega) (by omega) (by omega) (by omega)
  set D := Lan ||| Lon / 2 ^ 16 with hDdef
  have hfacts : (D = Lan ∨ D = Lan + 1) ∧ D ≤ 131071 ∧
      D % 2 * 65536 + Lon % 65536 = Lon := by
    by_cases hp : Lan % 2 = 1
    · have hlon : 65536 ≤ Lon := by
        by_contra hcon
        exact hbitN ⟨hp, by omega⟩
      have h1 : Lon / 2 ^ 16 = 1 := by omega
      have hDe : D = Lan := by rw [hDdef, h1]; exact lor_one_of_odd hp
      exact ⟨Or.inl hDe, by omega, by rw [hDe]; omega⟩
    · have hp0 : Lan % 2 = 0 := by omega
      rcases Nat.lt_or_ge Lon 65536 with h | h
      · have h0 : Lon / 2 ^ 16 = 0 := by omega
        have hDe : D = Lan := by rw [hDdef, h0, Nat.or_zero]
        exact ⟨Or.inl hDe, by omega, by rw [hDe]; omega⟩
      · have h1 : Lon / 2 ^ 16 = 1 := by omega
        have hDe : D = Lan + 1 := by rw [hDdef, h1]; exact lor_one_of_even hp0
        exact ⟨Or.inr hDe, by omega, by rw [hDe]; omega⟩
  obtain ⟨hDcase, hDle, hlng16⟩ := hfacts
  have hplb : 11 * 2 ^ 51 + nic * 2 ^ 47 + An * 2 ^ 35 + D * 2 ^ 16 + Lon % 2 ^ 16
      < 2 ^ 56 := by omega
  have hmsgeq : generatePositionMessage icaoInt lat lng alt nic
      = padStart 28 '0' (natToHexMin (17 * 2 ^ 107 + 5 * 2 ^ 104 + icaoInt * 2 ^ 80 +
          (11 * 2 ^ 51 + nic * 2 ^ 47 + An * 2 ^ 35 + D * 2 ^ 16 + Lon % 2 ^ 16) * 2 ^ 24
          + 10855845)) := by
    simp only [generatePositionMessage, assembleMessage]
    rw [hpay, assemble_msg_eq (by omega) hplb]
  set M := 17 * 2 ^ 107 + 5 * 2 ^ 104 + icaoInt * 2 ^ 80 +
      (11 * 2 ^ 51 + nic * 2 ^ 47 + An * 2 ^ 35 + D * 2 ^ 16 + Lon % 2 ^ 16) * 2 ^ 24
      + 10855845 with hMdef
  have hM16 : M < 16 ^ 28 := by rw [hMdef]; omega
  have hdf : (M >>> 107) % 32 = 17 := by
    rw [hMdef]
    simp only [Nat.shiftRight_eq_div_pow]
    omega
  have htc : (M >>> 75) % 32 = 11 := by
    rw [hMdef]
    simp only [Nat.shiftRight_eq_div_pow]
    omega
  have hicaoe : (M >>> 80) % 16777216 = icaoInt := by
    rw [hMdef]
    simp only [Nat.shiftRight_eq_div_pow]
    omega
  have hple : (M >>> 24) % 72057594037927936
      = 11 * 2 ^ 51 + nic * 2 ^ 47 + An * 2 ^ 35 + D * 2 ^ 16 + Lon % 2 ^ 16 := by
    rw [hMdef]
    simp only [Nat.shiftRight_eq_div_pow]
    omega
  have hdecode : decodeMessage (generatePositionMessage icaoInt lat lng alt nic)
      = Except.ok (some
        { icao := padStart 6 '0' (natToHexMin icaoInt)
          data := some (DecodedData.position (decodePosition
            (11 * 2 ^ 51 + nic * 2 ^ 47 + An * 2 ^ 35 + D * 2 ^ 16 + Lon % 2 ^ 16))) }) := by
    rw [hmsgeq, natToHexMin_pad hM16 (by norm_num),
      decodeMessage_parsed (natToHexDigits_length 28 M) (hexVal_natToHexDigits hM16),
      decodeMessageCore_position hdf (by rw [htc]; norm_num) (by rw [htc]; norm_num),
      hicaoe, hple]
  have hrtp : roundTripPosition icaoInt lat lng alt nic
      = decodePosition
          (11 * 2 ^ 51 + nic * 2 ^ 47 + An * 2 ^ 35 + D * 2 ^ 16 + Lon % 2 ^ 16) := by
    simp only [roundTripPosition]
    rw [hmsgeq, natToHexMin_pad hM16 (by norm_num), hexVal_natToHexDigits hM16,
      Option.getD_some, hple]
  have hnicF : ((11 * 2 ^ 51 + nic * 2 ^ 47 + An * 2 ^ 35 + D * 2 ^ 16 + Lon % 2 ^ 16)
      >>> 47) % 16 = nic := by
    simp only [Nat.shiftRight_eq_div_pow]
    omega
  have haltF : ((11 * 2 ^ 51 + nic * 2 ^ 47 + An * 2 ^ 35 + D * 2 ^ 16 + Lon % 2 ^ 16)
      >>> 35) % 4096 = An := by
    simp only [Nat.shiftRight_eq_div_pow]
    omega
  have hlatF : ((11 * 2 ^ 51 + nic * 2 ^ 47 + An * 2 ^ 35 + D * 2 ^ 16 + Lon % 2 ^ 16)
      >>> 16) % 131072 = D := by
    simp only [Nat.shiftRight_eq_div_pow]
    omega
  have hlngF : (11 * 2 ^ 51 + nic * 2 ^ 47 + An * 2 ^ 35 + D * 2 ^ 16 + Lon % 2 ^ 16)
      % 131072 = Lon := by omega
  have hpos : decodePosition
      (11 * 2 ^ 51 + nic * 2 ^ 47 + An * 2 ^ 35 + D * 2 ^ 16 + Lon % 2 ^ 16)
      = { lat := (D : ℚ) / 131071 * 180 - 90
          lng := (Lon : ℚ) / 131071 * 360 - 180
          altitude := (An : ℤ) * 25 - 1000
          nic := nic } := by
    unfold decodePosition
    rw [hnicF, haltF, hlatF, hlngF]
  have hDq : ((D:ℕ):ℚ) = ((L:ℤ):ℚ) ∨ ((D:ℕ):ℚ) = ((L:ℤ):ℚ) + 1 := by
    have hq : ((Lan:ℕ):ℚ) = ((L:ℤ):ℚ) := by exact_mod_cast hLc
    rcases hDcase with h | h
    · left; rw [h, hq]
    · right; rw [h]; push_cast [← hq]; ring
  have hfl1 : ((L:ℤ):ℚ) ≤ E := by rw [hLdef]; exact Int.floor_le E
  have hfl2 : E < ((L:ℤ):ℚ) + 1 := by rw [hLdef]; exact Int.lt_floor_add_one E
  have hgl1 : ((G:ℤ):ℚ) ≤ F := by rw [hGdef]; exact Int.floor_le F
  have hgl2 : F < ((G:ℤ):ℚ) + 1 := by rw [hGdef]; exact Int.lt_floor_add_one F
  refine ⟨by rw [hpos] at hdecode; rw [hrtp, hpos]; exact hdecode, ?_, ?_, ?_, ?_⟩
  · rw [hrtp, hpos]
  · rw [hrtp, hpos]
    have hAq : ((An:ℕ):ℚ) = ((A:ℤ):ℚ) := by exact_mod_cast hAc
    have hb1 : ((A:ℤ):ℚ) * 25 ≤ alt + 1000 := by
      have h := Int.floor_le ((alt + 1000) / 25)
      rw [← hAdef] at h
      exact (le_div_iff (by norm_num)).mp h
    have hb2 : alt + 1000 < ((A:ℤ):ℚ) * 25 + 25 := by
      have h := Int.lt_floor_add_one ((alt + 1000) / 25)
      rw [← hAdef] at h
      have := (div_lt_iff (show (0:ℚ) < 25 by norm_num)).mp h
      linarith
    show |(((An:ℤ) * 25 - 1000 : ℤ) : ℚ) - alt| < 25
    push_cast
    rw [hAq, abs_lt]
    constructor <;> linarith
  · rw [hrtp, hpos]
    have hiden : lat = E * 180 / 131071 - 90 := by
      rw [hEdef]
      field_simp
    show |(D:ℚ) / 131071 * 180 - 90 - lat| ≤ 180 / 131071
    rw [hiden, abs_le]
    rcases hDq with h | h <;> rw [h] <;> constructor <;> linarith
  · rw [hrtp, hpos]
    have hGq : ((Lon:ℕ):ℚ) = ((G:ℤ):ℚ) := by exact_mod_cast hGc
    have hiden : lng = F * 360 / 131071 - 180 := by
      rw [hFdef]
      field_simp
    show |(Lon:ℚ) / 131071 * 360 - 180 - lng| ≤ 360 / 131071
    rw [hiden, hGq, abs_le]
    constructor <;> linarith

/-- C2 witness: the round trip at `icao = 0x780000`, `lat = −90`, `lng = 0`,
`alt = 10000`, `nic = 9` (here the encoded latitude field is even, so the
overlap hypothesis holds). -/
theorem C2_roundtrip_witness :
    decodeMessage (generatePositionMessage 7864320 (-90) 0 10000 9)
      = Except.ok (some
        { icao := padStart 6 '0' (natToHexMin 7864320)
          data := some (DecodedData.position
            (roundTripPosition 7864320 (-90) 0 10000 9)) }) ∧
    (roundTripPosition 7864320 (-90) 0 10000 9).nic = 9 ∧
    |((roundTripPosition 7864320 (-90) 0 10000 9).altitude : ℚ) - 10000| < 25 ∧
    |(roundTripPosition 7864320 (-90) 0 10000 9).lat - (-90)| ≤ 180 / 131071 ∧
    |(roundTripPosition 7864320 (-90) 0 10000 9).lng - 0| ≤ 360 / 131071 :=
  C2_roundtrip 7864320 (-90) 0 10000 9 (by norm_num) (by norm_num)
    (by norm_num) (by norm_num) (by norm_num) (by norm_num)
    (by norm_num) (by norm_num) (by norm_num)

/-- C2 counterexample: at the in-range inputs `icao = 0x780000`, `lat = 0`,
`lng = −100`, `alt = 10000`, `nic = 9` the encoded latitude field is 65535
(odd) and the encoded longitude field is 29126 (< 2^16), so the simulator's
`|=` packing sets payload bit 16 from the latitude field and the decoder
reads back longitude field 29126 + 65536 = 94662: the decoded longitude is
`10485540/131071 ≈ 80°`, about 180° away from the input −100°, far beyond
the claimed one-quantization-step bound `360/131071`. -/
theorem C2_counterexample :
    decodeMessage (generatePositionMessage 7864320 0 (-100) 10000 9)
      = Except.ok (some
        { icao := ['7', '8', '0', '0', '0', '0']
          data := some (DecodedData.position
            { lat := -(90 / 131071), lng := 10485540 / 131071
              altitude := 10000, nic := 9 }) }) ∧
    ¬(|(10485540 / 131071 : ℚ) - (-100)| ≤ 360 / 131071) := by
  have hA : ⌊((10000:ℚ) + 1000) / 25⌋ = 440 := by norm_num
  have hL : ⌊((0:ℚ) + 90) / 180 * 131071⌋ = 65535 := by norm_num
  have hG : ⌊((-100:ℚ) + 180) / 360 * 131071⌋ = 29126 := by norm_num
  have hjsA : jsAnd (⌊((10000:ℚ) + 1000) / 25⌋) 12 = 440 := by rw [hA]; decide
  have hjsL : jsAnd (⌊((0:ℚ) + 90) / 180 * 131071⌋) 17 = 65535 := by rw [hL]; decide
  have hjsG : jsAnd (⌊((-100:ℚ) + 180) / 360 * 131071⌋) 17 = 29126 := by
    rw [hG]; decide
  have hpay : generatePayload 0 (-100) 10000 9 = 26051557925548486 := by
    simp only [generatePayload]
    rw [hjsA, hjsL, hjsG]
    decide
  have hmsg : generatePositionMessage 7864320 0 (-100) 10000 9
      = padStart 28 '0' (natToHexMin 2869327134053669864741226584319397) := by
    simp only [generatePositionMessage, assembleMessage]
    rw [hpay]
    rw [show (17 <<< 107 ||| 5 <<< 104 ||| 7864320 <<< 80 |||
        26051557925548486 <<< 24 ||| 10855845 : ℕ)
        = 2869327134053669864741226584319397 by decide]
  have hic : ((2869327134053669864741226584319397 : ℕ) >>> 80) % 16777216
      = 7864320 := by decide
  have hicchars : padStart 6 '0' (natToHexMin 7864320)
      = ['7', '8', '0', '0', '0', '0'] := by decide
  have hpl : ((2869327134053669864741226584319397 : ℕ) >>> 24) % 72057594037927936
      = 26051557925548486 := by decide
  have hrec : decodePosition 26051557925548486 =
      { lat := -(90 / 131071), lng := 10485540 / 131071
        altitude := 10000, nic := 9 } := by
    have h1 : ((26051557925548486 : ℕ) >>> 16) % 131072 = 65535 := by decide
    have h2 : (26051557925548486 : ℕ) % 131072 = 94662 := by decide
    have h3 : ((26051557925548486 : ℕ) >>> 35) % 4096 = 440 := by decide
    have h4 : ((26051557925548486 : ℕ) >>> 47) % 16 = 9 := by decide
    unfold decodePosition
    rw [h1, h2, h3, h4]
    simp only [DecodedPosition.mk.injEq]
    norm_num
  refine ⟨?_, by rw [abs_le]; norm_num⟩
  rw [hmsg, natToHexMin_pad (by norm_num) (by norm_num),
    decodeMessage_parsed (natToHexDigits_length 28 _)
      (hexVal_natToHexDigits (by norm_num)),
    decodeMessageCore_position (by decide) (by decide) (by decide),
    hic, hicchars, hpl, hrec]

end Adsb
